import Mathlib

/-!
Verification of the entity-resolution / merge / scoring core of
`scripts/bay_housing_refresh.py`.

The Python dictionaries that flow through the pipeline are embedded as the
structure `Item` below; absent dictionary keys are represented by the
field defaults (`""` for strings, `none` for nullable numerics, `[]` for
lists, `0` for the numeric scores, matching the `item.get(k, default)`
accesses in the source).  Numeric fields (`price`, `beds`, `baths`,
scores) are Python floats in the source; every value the program ever
computes with them is an exact decimal, so they are embedded as `ℚ`.
String operations are implemented over the underlying character lists so
that all definitions evaluate by `decide`/`simp`.
-/

namespace BayHousing

/-- Constant `MAX_RENT = 8000` from the source. -/
def MAX_RENT : ℚ := 8000

/-- Constant `STRETCH_MAX = 9000` from the source. -/
def STRETCH_MAX : ℚ := 9000

/-- Constant `MIN_BEDS = 2` from the source. -/
def MIN_BEDS : ℚ := 2

/-- Constant `MIN_BATHS = 2` from the source. -/
def MIN_BATHS : ℚ := 2

/-- Constant `ALLOWED_PROPERTY_TYPES = {"house", "townhouse"}` from the source
(membership test only, so a list is an adequate embedding of the set). -/
def ALLOWED_PROPERTY_TYPES : List String := ["house", "townhouse"]

/-- One pipeline record (a Python dict).  Raw scraped records use only the
fields up to `commute_score`; the merge pass additionally populates
`canonical_key`, `match_score`, the provenance lists and the quality
verdict, exactly as the source mutates its dicts.  A default value stands
for "key absent from the dict". -/
structure Item where
  listing_id : String := ""
  source : String := ""
  url : String := ""
  property_name : String := ""
  address : String := ""
  city : String := ""
  property_type : String := ""
  price : Option ℚ := none
  beds : Option ℚ := none
  baths : Option ℚ := none
  dog_friendly : String := ""
  parking : String := ""
  nature_score : ℚ := 0
  commute_score : ℚ := 0
  canonical_key : String := ""
  match_score : ℚ := 0
  sources : List String := []
  source_urls : List String := []
  listing_ids : List String := []
  data_quality : String := ""
  quality_notes : String := ""
deriving DecidableEq, Repr

/-- Python `str.lower()` (ASCII; every non-ASCII character is irrelevant to
the claims because `normalize_text` discards it either way). -/
def lowerStr (s : String) : String := ⟨s.data.map Char.toLower⟩

/-- One character of `normalize_text`: lowercase, and replace anything
outside `[a-z0-9 ]` by a space (the source replaces whole runs by a single
space, but the subsequent whitespace collapse makes the two equivalent). -/
def normChar (c : Char) : Char :=
  let c := c.toLower
  if (('a' ≤ c && c ≤ 'z') || ('0' ≤ c && c ≤ '9') || c == ' ') then c else ' '

/-- Collapse runs of spaces to a single space and drop trailing spaces
(the input has already had its leading spaces removed). -/
def collapseSpaces : List Char → List Char
  | [] => []
  | [c] => if c == ' ' then [] else [c]
  | c :: d :: cs =>
    if c == ' ' then
      if d == ' ' then collapseSpaces (d :: cs)
      else ' ' :: collapseSpaces (d :: cs)
    else c :: collapseSpaces (d :: cs)

/-- `normalize_text` from the source: lowercase, strip non-alphanumerics
(keeping spaces), collapse whitespace, strip. -/
def normalize_text (s : String) : String :=
  ⟨collapseSpaces ((s.data.map normChar).dropWhile (fun d => d == ' '))⟩

/-- A regex word character (`\w`), ASCII approximation. -/
def isWordChar (c : Char) : Bool := c.isAlphanum || c == '_'

/-- Matcher for the tail of the pattern `\d{1,6}\s+[a-z0-9].+` (with
`re.I`) at a position whose first character is a digit: a run of at most
six digits, then at least one whitespace character, then an alphanumeric
character, then at least one further non-newline character.  Taking fewer
than the full digit or whitespace runs cannot help the regex engine here
(the next character would be a digit where whitespace is required, or a
whitespace character where an alphanumeric is required), so matching the
full runs is exhaustive. -/
def lsaTail (l : List Char) : Bool :=
  let ds := l.takeWhile Char.isDigit
  let r1 := l.dropWhile Char.isDigit
  let ws := r1.takeWhile Char.isWhitespace
  let r2 := r1.dropWhile Char.isWhitespace
  decide (ds.length ≤ 6) && decide (1 ≤ ws.length) &&
    (match r2 with
     | c :: d :: _ => c.isAlphanum && d != '\n'
     | _ => false)

/-- Scan for `\b\d{1,6}\s+[a-z0-9].+`: try every position that is a word
boundary followed by a digit.  `prevWord` records whether the previous
character was a word character (no boundary). -/
def lsaScan : Bool → List Char → Bool
  | _, [] => false
  | prevWord, c :: cs =>
    (!prevWord && c.isDigit && lsaTail (c :: cs)) || lsaScan (isWordChar c) cs

/-- `likely_street_address` from the source:
`bool(re.search(r"\b\d{1,6}\s+[a-z0-9].+", s, flags=re.I))`. -/
def likely_street_address (s : String) : Bool := lsaScan false s.data

/-- `re.sub(r"https?://", "", url)`: delete every occurrence of
`https://` or `http://`, scanning left to right. -/
def stripScheme : List Char → List Char
  | 'h' :: 't' :: 't' :: 'p' :: 's' :: ':' :: '/' :: '/' :: rest => stripScheme rest
  | 'h' :: 't' :: 't' :: 'p' :: ':' :: '/' :: '/' :: rest => stripScheme rest
  | c :: cs => c :: stripScheme cs
  | [] => []

/-- Python string slice `s[:n]` (by code point). -/
def strTake (s : String) (n : Nat) : String := ⟨s.data.take n⟩

/-- `canonical_key` from the source: prefer the normalized address when it
looks like a street address, else name+city, else the URL with its scheme
stripped, normalized and truncated to 140 characters. -/
def canonical_key (item : Item) : String :=
  let addr := normalize_text item.address
  if likely_street_address addr then "addr:" ++ addr
  else
    let name := normalize_text item.property_name
    let city := normalize_text item.city
    if name ≠ "" ∧ city ≠ "" then "namecity:" ++ name ++ "|" ++ city
    else
      let url_key := normalize_text ⟨stripScheme item.url.data⟩
      "url:" ++ strTake url_key 140

/-- Python `round(x, 2) * 100` rounds half to even.  This embeds the exact
decimal semantics; binary-float representation artifacts are out of scope
(every value the program rounds is an exact small decimal). -/
def pyRound (x : ℚ) : ℤ :=
  if x - (Rat.floor x : ℚ) < 1/2 then Rat.floor x
  else if 1/2 < x - (Rat.floor x : ℚ) then Rat.floor x + 1
  else if Rat.floor x % 2 = 0 then Rat.floor x else Rat.floor x + 1

/-- Python `round(x, 2)`. -/
def round2 (x : ℚ) : ℚ := (pyRound (x * 100) : ℚ) / 100

/-- `score` from the source: price band, beds, baths, amenity flags, plus
the precomputed nature and commute scores, rounded to two decimals. -/
def score (item : Item) : ℚ :=
  let s : ℚ :=
    (match item.price with
     | some price => if price ≤ MAX_RENT then 4 else if price ≤ STRETCH_MAX then 2 else 0
     | none => 0)
    + (match item.beds with
       | some beds => if beds ≥ 3 then 2 else if beds ≥ 2 then 1 else 0
       | none => 0)
    + (match item.baths with
       | some baths => if baths ≥ 2 then 1 else 0
       | none => 0)
    + (if item.dog_friendly = "yes" then 2 else 0)
    + (if item.parking = "yes" then 2 else 0)
    + item.nature_score + item.commute_score
  round2 s

/-- `(item.get("property_type") or "unknown").lower()`, shared by
`passes_hard_filters` and `quality_assessment` in the source. -/
def normPtype (item : Item) : String :=
  lowerStr (if item.property_type = "" then "unknown" else item.property_type)

/-- `passes_hard_filters` from the source.  A null price/beds/baths skips
the corresponding check. -/
def passes_hard_filters (item : Item) : Bool :=
  if normPtype item ∉ ALLOWED_PROPERTY_TYPES then false
  else if (match item.price with | some p => decide (p > STRETCH_MAX) | none => false) then false
  else if (match item.beds with | some b => decide (b < MIN_BEDS) | none => false) then false
  else if (match item.baths with | some b => decide (b < MIN_BATHS) | none => false) then false
  else true

/-- The list of failure reasons accumulated by `quality_assessment`, in
source order. -/
def quality_reasons (item : Item) : List String :=
  (if item.canonical_key = "" then ["missing canonical key"] else [])
  ++ (if item.address = "" ∧ item.property_name = "" then ["missing address/name"] else [])
  ++ (if item.sources = [] then ["missing sources"] else [])
  ++ (if item.price = none then ["missing price"] else [])
  ++ (if item.beds = none then ["missing beds"] else [])
  ++ (if item.baths = none then ["missing baths"] else [])
  ++ (if normPtype item ∉ ALLOWED_PROPERTY_TYPES
      then ["property type not allowed: " ++ normPtype item] else [])

/-- Python `sep.join(parts)`. -/
def joinSep (sep : String) : List String → String
  | [] => ""
  | [x] => x
  | x :: xs => x ++ sep ++ joinSep sep xs

/-- `quality_assessment` from the source: `("fail", reasons joined by "; ")`
when any reason fired, else `("pass", "ready")`. -/
def quality_assessment (item : Item) : String × String :=
  let reasons := quality_reasons item
  if reasons ≠ [] then ("fail", joinSep "; " reasons) else ("pass", "ready")

/-- Python `<` on strings: lexicographic comparison by code point. -/
def strLtb : List Char → List Char → Bool
  | [], [] => false
  | [], _ :: _ => true
  | _ :: _, [] => false
  | a :: as, b :: bs => if a < b then true else if b < a then false else strLtb as bs

/-- Insert a string into a sorted list, keeping it sorted. -/
def insStr (x : String) : List String → List String
  | [] => [x]
  | y :: ys => if strLtb y.data x.data then y :: insStr x ys else x :: y :: ys

/-- Insertion sort of strings, ascending. -/
def sortStr : List String → List String
  | [] => []
  | x :: xs => insStr x (sortStr xs)

/-- Python `sorted(list(set(l)))`: sorting first and then removing
duplicates gives the same list. -/
def sortedSet (l : List String) : List String := (sortStr l).dedup

/-- Lines 278-280 of the source: `item["canonical_key"] = canonical_key(item)`
and `item["match_score"] = score(item)`, written into the record before it
is merged.  (`score` does not read `canonical_key`, so the two updates
commute with each other.)  These writes go to the caller's dict: this
function is also the post-state of each input record after
`merge_duplicates` returns. -/
def annotate (item : Item) : Item :=
  { item with canonical_key := canonical_key item, match_score := score item }

/-- Seeding a new group (lines 282-287): `merged = dict(item)` plus the
singleton provenance lists; `sorted(list({item["source"]}))` is just
`[item.source]`. -/
def seed (item : Item) : Item :=
  { item with
    sources := sortedSet [item.source]
    source_urls := [item.url]
    listing_ids := [item.listing_id] }

/-- Folding one annotated record into the existing `MergedListing` for its
key (lines 290-308): first-non-null fill of price/beds/baths, address
backfill, provenance union (`sorted(list(set(old) | {new}))`), and the
higher-score representative override. -/
def mergeStep (cur item : Item) : Item :=
  let cur := { cur with
    price := match cur.price with | some p => some p | none => item.price
    beds := match cur.beds with | some b => some b | none => item.beds
    baths := match cur.baths with | some b => some b | none => item.baths }
  let cur := if cur.address = "" ∧ item.address ≠ "" then { cur with address := item.address } else cur
  let cur := { cur with
    sources := sortedSet (cur.sources ++ [item.source])
    source_urls := sortedSet (cur.source_urls ++ [item.url])
    listing_ids := sortedSet (cur.listing_ids ++ [item.listing_id]) }
  if item.match_score > cur.match_score then
    { cur with
      property_name := item.property_name
      city := item.city
      property_type := item.property_type
      dog_friendly := item.dog_friendly
      parking := item.parking
      nature_score := item.nature_score
      commute_score := item.commute_score
      match_score := item.match_score }
  else cur

/-- The insertion-ordered map `by_key`, embedded as an association list of
merged records keyed by their `canonical_key` field (a Python 3.7+ dict
preserves insertion order; `list(by_key.values())` is this list). -/
def insertItem : List Item → Item → List Item
  | [], item => [seed item]
  | m :: rest, item =>
    if m.canonical_key = item.canonical_key then mergeStep m item :: rest
    else m :: insertItem rest item

/-- One iteration of the `for item in items` loop of `merge_duplicates`. -/
def foldItem (acc : List Item) (raw : Item) : List Item :=
  insertItem acc (annotate raw)

/-- The grouping pass of `merge_duplicates` (lines 276-308), before
filtering, quality assessment and sorting. -/
def mergePass (items : List Item) : List Item := items.foldl foldItem []

/-- Lines 312-315: attach the quality verdict and notes. -/
def applyQuality (m : Item) : Item :=
  let qa := quality_assessment m
  { m with data_quality := qa.1, quality_notes := qa.2 }

/-- Stable insertion into a list sorted descending by `match_score`; on a
tie the inserted (originally earlier) record stays first, as with Python's
stable `list.sort(key=..., reverse=True)`. -/
def insDesc (x : Item) : List Item → List Item
  | [] => [x]
  | y :: ys => if y.match_score ≤ x.match_score then x :: y :: ys else y :: insDesc x ys

/-- Stable sort, descending by `match_score`. -/
def isortDesc : List Item → List Item
  | [] => []
  | x :: xs => insDesc x (isortDesc xs)

/-- `merge_duplicates` from the source: group by canonical key, drop
records failing the hard filters, attach the quality verdict, sort by
match score descending. -/
def merge_duplicates (items : List Item) : List Item :=
  let merged := mergePass items
  let survivors := merged.filter passes_hard_filters
  isortDesc (survivors.map applyQuality)

/-- The post-state of the input records themselves after `merge_duplicates`
returns: lines 278-280 write `canonical_key` and `match_score` into each
input dict in place, so each input record ends the run equal to its
`annotate`d form. -/
def merge_inputs_after (items : List Item) : List Item := items.map annotate

/-- Python `s.startswith(p)`, used to state the shape of canonical keys. -/
def strStarts (p s : String) : Bool := p.data.isPrefixOf s.data

/-- A canonical key carries exactly one of the three shape tags. -/
def exactlyOneKeyShape (k : String) : Bool :=
  (strStarts "addr:" k && !strStarts "namecity:" k && !strStarts "url:" k)
  || (!strStarts "addr:" k && strStarts "namecity:" k && !strStarts "url:" k)
  || (!strStarts "addr:" k && !strStarts "namecity:" k && strStarts "url:" k)

/-! Concrete test records used by counterexamples and witnesses.  `mkRat`
is used instead of `/` for the one non-integral value so that the record
is a kernel-computable literal (`mkRat 5 2 = 5/2 = 2.5`). -/

/-- The "redfin" record of the end-to-end scenario: price 7500, 3 beds,
2 baths, a house. -/
def R1 : Item :=
  { listing_id := "rf1", source := "redfin", url := "https://redfin.example/1",
    address := "123 Main St", property_type := "house",
    price := some 7500, beds := some 3, baths := some 2 }

/-- The "realtor" record of the end-to-end scenario: no price, no beds,
2.5 baths, dog friendly. -/
def R2 : Item :=
  { listing_id := "rl1", source := "realtor", url := "https://realtor.example/1",
    address := "123 Main St",
    baths := some (mkRat 5 2), dog_friendly := "yes" }

/-- `annotate R1` written out (canonical key `addr:123 main st`, score 7). -/
def R1a : Item := { R1 with canonical_key := "addr:123 main st", match_score := 7 }

/-- `annotate R2` written out (canonical key `addr:123 main st`, score 3). -/
def R2a : Item := { R2 with canonical_key := "addr:123 main st", match_score := 3 }

/-- Record with no street address and name+city "Foo"/"Bar". -/
def N1 : Item := { property_name := "Foo", city := "Bar" }

/-- Record with no street address and name+city "Baz"/"Qux". -/
def N2 : Item := { property_name := "Baz", city := "Qux" }

/-- Street-address record, plain spelling. -/
def W1 : Item := { address := "123 Main St", source := "redfin", url := "https://a.example/1" }

/-- Same street address up to normalization, all other fields different. -/
def W2 : Item :=
  { address := "123  MAIN st!", source := "realtor", url := "https://b.example/2",
    property_name := "Some Name", city := "Some City" }

/-- Record with price 3 beds 2 baths (individual score 3) at "77 Oak Ave". -/
def A4 : Item :=
  { listing_id := "a4", source := "redfin", url := "https://redfin.example/a4",
    address := "77 Oak Ave", property_type := "house",
    beds := some 3, baths := some 2 }

/-- Record with only a price of 7500 (individual score 4) at "77 Oak Ave". -/
def B4 : Item :=
  { listing_id := "b4", source := "realtor", url := "https://realtor.example/b4",
    address := "77 Oak Ave", property_type := "house", price := some 7500 }

/-- `annotate A4` written out. -/
def A4a : Item := { A4 with canonical_key := "addr:77 oak ave", match_score := 3 }

/-- `annotate B4` written out. -/
def B4a : Item := { B4 with canonical_key := "addr:77 oak ave", match_score := 4 }

/-- Low-scoring record (score 3: 3 beds, 2 baths) at "5 Pine Rd", a condo. -/
def A5 : Item :=
  { listing_id := "a5", source := "s1", url := "https://a.example/a5",
    address := "5 Pine Rd", property_type := "condo",
    beds := some 3, baths := some 2 }

/-- High-scoring record (score 8: price 7500, 2 beds, 2 baths, dog friendly)
at "5 Pine Rd", a house. -/
def B5 : Item :=
  { listing_id := "b5", source := "s2", url := "https://b.example/b5",
    address := "5 Pine Rd", property_type := "house",
    price := some 7500, beds := some 2, baths := some 2, dog_friendly := "yes" }

/-- A merged record with stored match score 3. -/
def C0 : Item := { property_type := "house", match_score := 3, sources := ["s1"],
                   source_urls := ["u1"], listing_ids := ["l1"] }

/-- An incoming annotated record with match score 8. -/
def I0 : Item := { listing_id := "l2", source := "s2", url := "u2",
                   property_type := "townhouse", match_score := 8 }

/-- A record with a null price at "9 Elm St". -/
def A3 : Item := { listing_id := "a3", source := "s1", url := "u3a", address := "9 Elm St" }

/-- A record with price 2500 at "9 Elm St". -/
def B3 : Item := { listing_id := "b3", source := "s2", url := "u3b", address := "9 Elm St",
                   price := some 2500 }

/-- An otherwise-eligible house priced exactly at the stretch ceiling. -/
def H7 : Item := { property_type := "house", price := some 9000 }

/-- A townhouse with null price, beds and baths. -/
def N7 : Item := { property_type := "townhouse" }

/-- An apartment that satisfies every numeric filter. -/
def A7 : Item := { property_type := "apartment", price := some 100,
                   beds := some 3, baths := some 3 }

/-- An otherwise-eligible house priced above the stretch ceiling. -/
def P7 : Item := { property_type := "house", price := some 9500 }

/-- A fully-populated merged record (no property name) that passes the
quality gate. -/
def G8 : Item := { canonical_key := "addr:77 oak ave", address := "77 Oak Ave",
                   property_type := "house", price := some 1000,
                   beds := some 2, baths := some 2, sources := ["s"] }

/-- Like `G8` but carrying a property name as well. -/
def G8n : Item := { G8 with property_name := "The Oaks" }

/-- A record satisfying every field condition of the quality gate except
that its canonical key is still unset. -/
def X8 : Item := { address := "77 Oak Ave", property_type := "house",
                   price := some 1000, beds := some 2, baths := some 2, sources := ["s"] }

/-- A record with a canonical key and a property name but no address. -/
def Y8 : Item := { canonical_key := "addr:somewhere", property_name := "The Oaks",
                   property_type := "house", price := some 1000,
                   beds := some 2, baths := some 2, sources := ["s"] }

/-- A raw input record (canonical key unset, as for every scraped record). -/
def R9 : Item := { listing_id := "r9", source := "redfin", address := "123 Main St" }

/-! Helper lemmas. -/

theorem rat_floor_eq_intFloor (x : ℚ) : Rat.floor x = ⌊x⌋ := rfl

theorem round2_intCast (n : ℤ) : round2 (n : ℚ) = (n : ℚ) := by
  have hfloor : Rat.floor ((n : ℚ) * 100) = n * 100 := by
    rw [rat_floor_eq_intFloor, show ((n : ℚ) * 100) = ((n * 100 : ℤ) : ℚ) by push_cast; ring,
      Int.floor_intCast]
  unfold round2 pyRound
  rw [hfloor]
  rw [if_pos (by push_cast; norm_num : (n : ℚ) * 100 - ((n * 100 : ℤ) : ℚ) < 1/2)]
  push_cast
  rw [mul_div_assoc]
  norm_num

theorem round2_eval (x : ℚ) (n : ℤ) (h : x = (n : ℚ)) : round2 x = x := by
  rw [h, round2_intCast]

theorem annotate_price (r : Item) : (annotate r).price = r.price := rfl

theorem annotate_beds (r : Item) : (annotate r).beds = r.beds := rfl

theorem annotate_baths (r : Item) : (annotate r).baths = r.baths := rfl

theorem annotate_canonical_key (r : Item) : (annotate r).canonical_key = canonical_key r := rfl

theorem annotate_match_score (r : Item) : (annotate r).match_score = score r := rfl

theorem seed_price (r : Item) : (seed r).price = r.price := rfl

theorem seed_beds (r : Item) : (seed r).beds = r.beds := rfl

theorem seed_baths (r : Item) : (seed r).baths = r.baths := rfl

theorem seed_canonical_key (r : Item) : (seed r).canonical_key = r.canonical_key := rfl

theorem seed_match_score (r : Item) : (seed r).match_score = r.match_score := rfl

theorem seed_sources (r : Item) : (seed r).sources = sortedSet [r.source] := rfl

theorem mergeStep_price (cur item : Item) :
    (mergeStep cur item).price
      = (match cur.price with | some p => some p | none => item.price) := by
  simp only [mergeStep, apply_ite Item.price, ite_self]

theorem mergeStep_beds (cur item : Item) :
    (mergeStep cur item).beds
      = (match cur.beds with | some b => some b | none => item.beds) := by
  simp only [mergeStep, apply_ite Item.beds, ite_self]

theorem mergeStep_baths (cur item : Item) :
    (mergeStep cur item).baths
      = (match cur.baths with | some b => some b | none => item.baths) := by
  simp only [mergeStep, apply_ite Item.baths, ite_self]

theorem mergeStep_canonical_key (cur item : Item) :
    (mergeStep cur item).canonical_key = cur.canonical_key := by
  simp only [mergeStep, apply_ite Item.canonical_key, ite_self]

theorem mergeStep_sources (cur item : Item) :
    (mergeStep cur item).sources = sortedSet (cur.sources ++ [item.source]) := by
  simp only [mergeStep, apply_ite Item.sources, ite_self]

theorem mergeStep_source_urls (cur item : Item) :
    (mergeStep cur item).source_urls = sortedSet (cur.source_urls ++ [item.url]) := by
  simp only [mergeStep, apply_ite Item.source_urls, ite_self]

theorem mergeStep_listing_ids (cur item : Item) :
    (mergeStep cur item).listing_ids = sortedSet (cur.listing_ids ++ [item.listing_id]) := by
  simp only [mergeStep, apply_ite Item.listing_ids, ite_self]

theorem mergeStep_match_score (cur item : Item) :
    (mergeStep cur item).match_score = max cur.match_score item.match_score := by
  simp only [mergeStep, apply_ite Item.match_score, ite_self]
  split
  next h => exact (max_eq_right (le_of_lt h)).symm
  next h => exact (max_eq_left (le_of_not_lt h)).symm

theorem mem_insStr {x y : String} {l : List String} : x ∈ insStr y l ↔ x = y ∨ x ∈ l := by
  induction l with
  | nil => simp [insStr]
  | cons a as ih =>
    simp only [insStr]
    split <;> (simp only [List.mem_cons, ih]; try tauto)

theorem mem_sortStr {x : String} {l : List String} : x ∈ sortStr l ↔ x ∈ l := by
  induction l with
  | nil => simp [sortStr]
  | cons a as ih => simp [sortStr, mem_insStr, ih]

theorem mem_sortedSet {x : String} {l : List String} : x ∈ sortedSet l ↔ x ∈ l := by
  simp [sortedSet, List.mem_dedup, mem_sortStr]

theorem mem_insDesc {x y : Item} {l : List Item} : x ∈ insDesc y l ↔ x = y ∨ x ∈ l := by
  induction l with
  | nil => simp [insDesc]
  | cons a as ih =>
    simp only [insDesc]
    split <;> (simp only [List.mem_cons, ih]; try tauto)

theorem mem_isortDesc {x : Item} {l : List Item} : x ∈ isortDesc l ↔ x ∈ l := by
  induction l with
  | nil => simp [isortDesc]
  | cons a as ih => simp [isortDesc, mem_insDesc, ih]

theorem annotate_eq (r : Item) (k : String) (q : ℚ)
    (hk : canonical_key r = k) (hs : score r = q) :
    annotate r = { r with canonical_key := k, match_score := q } := by
  rw [annotate, hk, hs]

theorem mergePass_pair (a b ha hb : Item) (h1 : annotate a = ha) (h2 : annotate b = hb)
    (hkey : ha.canonical_key = hb.canonical_key) :
    mergePass [a, b] = [mergeStep (seed ha) hb] := by
  simp only [mergePass, List.foldl, foldItem, h1, h2, insertItem]
  rw [if_pos (show (seed ha).canonical_key = hb.canonical_key from hkey)]

theorem merge_duplicates_single (items : List Item) (M : Item)
    (h : mergePass items = [M]) (hp : passes_hard_filters M = true) :
    merge_duplicates items = [applyQuality M] := by
  simp only [merge_duplicates, h]
  rw [List.filter_cons_of_pos hp]
  simp [isortDesc, insDesc]

theorem score_R1 : score R1 = 7 := by
  simp only [score, R1, eq_false (by decide : ¬ (("" : String) = "yes"))]
  rw [round2_eval _ 7 (by norm_num [MAX_RENT, STRETCH_MAX])]
  norm_num [MAX_RENT, STRETCH_MAX]

theorem score_R2 : score R2 = 3 := by
  simp only [score, R2, eq_true (by decide : (("yes" : String) = "yes")),
    eq_false (by decide : ¬ (("" : String) = "yes"))]
  rw [round2_eval _ 3 (by norm_num [MAX_RENT, STRETCH_MAX, Rat.mkRat_eq_divInt, Rat.divInt_eq_div])]
  norm_num [MAX_RENT, STRETCH_MAX, Rat.mkRat_eq_divInt, Rat.divInt_eq_div]

theorem score_A4 : score A4 = 3 := by
  simp only [score, A4, eq_false (by decide : ¬ (("" : String) = "yes"))]
  rw [round2_eval _ 3 (by norm_num [MAX_RENT, STRETCH_MAX])]
  norm_num [MAX_RENT, STRETCH_MAX]

theorem score_B4 : score B4 = 4 := by
  simp only [score, B4, eq_false (by decide : ¬ (("" : String) = "yes"))]
  rw [round2_eval _ 4 (by norm_num [MAX_RENT, STRETCH_MAX])]
  norm_num [MAX_RENT, STRETCH_MAX]

theorem score_A5 : score A5 = 3 := by
  simp only [score, A5, eq_false (by decide : ¬ (("" : String) = "yes"))]
  rw [round2_eval _ 3 (by norm_num [MAX_RENT, STRETCH_MAX])]
  norm_num [MAX_RENT, STRETCH_MAX]

theorem score_B5 : score B5 = 8 := by
  simp only [score, B5, eq_true (by decide : (("yes" : String) = "yes")),
    eq_false (by decide : ¬ (("" : String) = "yes"))]
  rw [round2_eval _ 8 (by norm_num [MAX_RENT, STRETCH_MAX])]
  norm_num [MAX_RENT, STRETCH_MAX]

theorem annotate_R1 : annotate R1 = R1a :=
  annotate_eq R1 "addr:123 main st" 7 (by decide) score_R1

theorem annotate_R2 : annotate R2 = R2a :=
  annotate_eq R2 "addr:123 main st" 3 (by decide) score_R2

theorem annotate_A4 : annotate A4 = A4a :=
  annotate_eq A4 "addr:77 oak ave" 3 (by decide) score_A4

theorem annotate_B4 : annotate B4 = B4a :=
  annotate_eq B4 "addr:77 oak ave" 4 (by decide) score_B4

theorem annotate_property_type (r : Item) : (r.property_type) = (annotate r).property_type := rfl

theorem applyQuality_price (m : Item) : (applyQuality m).price = m.price := rfl

theorem mergeStep_override (cur item : Item) (h : item.match_score > cur.match_score) :
    (mergeStep cur item).property_name = item.property_name
    ∧ (mergeStep cur item).city = item.city
    ∧ (mergeStep cur item).property_type = item.property_type
    ∧ (mergeStep cur item).dog_friendly = item.dog_friendly
    ∧ (mergeStep cur item).parking = item.parking
    ∧ (mergeStep cur item).nature_score = item.nature_score
    ∧ (mergeStep cur item).commute_score = item.commute_score
    ∧ (mergeStep cur item).match_score = item.match_score := by
  simp [mergeStep, apply_ite Item.match_score, ite_self, h]

/-! Claim theorems. -/

/-- C1 (counterexample): two records whose address fields normalize to the
same (empty) string but which differ in property name and city receive
different canonical keys, refuting key determinism from the address alone. -/
theorem C1_counterexample :
    normalize_text N1.address = normalize_text N2.address
    ∧ N1.source = N2.source ∧ N1.url = N2.url
    ∧ canonical_key N1 ≠ canonical_key N2 := by decide

/-- C1 (amended): when the records' common normalized address moreover looks
like a street address (`likely_street_address`), `canonical_key` returns
the identical `addr:`-key for both, regardless of every other field. -/
theorem C1_canonical_key_determinism (a b : Item)
    (hnorm : normalize_text a.address = normalize_text b.address)
    (hstreet : likely_street_address (normalize_text a.address) = true) :
    canonical_key a = canonical_key b := by
  simp only [canonical_key]
  rw [← hnorm, hstreet]
  simp

/-- C1 witness: two records spelling the same street address differently and
differing in every other identifying field get the same key. -/
theorem C1_canonical_key_determinism_witness : canonical_key W1 = canonical_key W2 :=
  C1_canonical_key_determinism W1 W2 (by decide) (by decide)

/-- C3: first-non-null-wins for price/beds/baths.  For two same-key records
with price null and 2500, both fold orders give merged price 2500 — both at
the grouping stage and in every record `merge_duplicates` outputs — and in
general `mergeStep` keeps an existing non-null price/beds/baths and fills a
null slot from the incoming record. -/
theorem C3_first_non_null_wins (a b : Item) (v : ℚ)
    (hkey : canonical_key a = canonical_key b)
    (ha : a.price = none) (hb : b.price = some v) :
    ((mergePass [a, b]).map Item.price = [some v]
     ∧ (mergePass [b, a]).map Item.price = [some v])
    ∧ (∀ m ∈ merge_duplicates [a, b], m.price = some v)
    ∧ (∀ m ∈ merge_duplicates [b, a], m.price = some v)
    ∧ (∀ cur item : Item,
        (mergeStep cur item).price
          = (match cur.price with | some p => some p | none => item.price)
        ∧ (mergeStep cur item).beds
          = (match cur.beds with | some q => some q | none => item.beds)
        ∧ (mergeStep cur item).baths
          = (match cur.baths with | some q => some q | none => item.baths)) := by
  have hpass1 : mergePass [a, b] = [mergeStep (seed (annotate a)) (annotate b)] :=
    mergePass_pair a b _ _ rfl rfl
      (by rw [annotate_canonical_key, annotate_canonical_key, hkey])
  have hpass2 : mergePass [b, a] = [mergeStep (seed (annotate b)) (annotate a)] :=
    mergePass_pair b a _ _ rfl rfl
      (by rw [annotate_canonical_key, annotate_canonical_key, hkey])
  have hprice1 : (mergeStep (seed (annotate a)) (annotate b)).price = some v := by
    rw [mergeStep_price, seed_price, annotate_price, ha]
    exact hb
  have hprice2 : (mergeStep (seed (annotate b)) (annotate a)).price = some v := by
    rw [mergeStep_price, seed_price, annotate_price, hb]
  refine ⟨⟨by rw [hpass1, List.map_cons, hprice1]; rfl,
           by rw [hpass2, List.map_cons, hprice2]; rfl⟩, ?_, ?_,
          fun cur item => ⟨mergeStep_price cur item, mergeStep_beds cur item,
            mergeStep_baths cur item⟩⟩
  · intro m hm
    simp only [merge_duplicates, hpass1] at hm
    rw [mem_isortDesc] at hm
    rcases List.mem_map.mp hm with ⟨x, hx, rfl⟩
    have hx1 : x ∈ [mergeStep (seed (annotate a)) (annotate b)] := (List.mem_filter.mp hx).1
    rw [List.mem_singleton] at hx1
    rw [applyQuality_price, hx1, hprice1]
  · intro m hm
    simp only [merge_duplicates, hpass2] at hm
    rw [mem_isortDesc] at hm
    rcases List.mem_map.mp hm with ⟨x, hx, rfl⟩
    have hx1 : x ∈ [mergeStep (seed (annotate b)) (annotate a)] := (List.mem_filter.mp hx).1
    rw [List.mem_singleton] at hx1
    rw [applyQuality_price, hx1, hprice2]

/-- C3 witness: the records at "9 Elm St" (price null / price 2500) merge to
price 2500 in the first fold order. -/
theorem C3_first_non_null_wins_witness :
    (mergePass [A3, B3]).map Item.price = [some 2500] :=
  (C3_first_non_null_wins A3 B3 2500 (by decide) (by decide) (by decide)).1.1

/-- C5: higher-score representative override.  Whenever the incoming
record's individual match score strictly exceeds the stored score,
`mergeStep` overwrites property name, city, property type, dog_friendly,
parking, nature score, commute score and match score with the incoming
record's values; consequently, folding two same-key records whose scores
are ordered leaves the higher-scoring record's property type. -/
theorem C5_representative_override :
    (∀ cur item : Item, item.match_score > cur.match_score →
      (mergeStep cur item).property_name = item.property_name
      ∧ (mergeStep cur item).city = item.city
      ∧ (mergeStep cur item).property_type = item.property_type
      ∧ (mergeStep cur item).dog_friendly = item.dog_friendly
      ∧ (mergeStep cur item).parking = item.parking
      ∧ (mergeStep cur item).nature_score = item.nature_score
      ∧ (mergeStep cur item).commute_score = item.commute_score
      ∧ (mergeStep cur item).match_score = item.match_score)
    ∧ (∀ a b : Item, canonical_key a = canonical_key b → score b > score a →
        (mergePass [a, b]).map Item.property_type = [b.property_type]) := by
  refine ⟨mergeStep_override, fun a b hkey hscore => ?_⟩
  rw [mergePass_pair a b _ _ rfl rfl
    (by rw [annotate_canonical_key, annotate_canonical_key, hkey])]
  rw [List.map_cons]
  rw [(mergeStep_override (seed (annotate a)) (annotate b)
    (by rw [seed_match_score, annotate_match_score, annotate_match_score]; exact hscore)).2.2.1]
  rw [← annotate_property_type]
  rfl

/-- C5 witness: a score-8 record folded after a score-3 record with the same
key leaves the score-8 record's property type ("house", not "condo"). -/
theorem C5_representative_override_witness :
    (mergeStep C0 I0).property_type = I0.property_type
    ∧ (mergePass [A5, B5]).map Item.property_type = [B5.property_type] :=
  ⟨(C5_representative_override.1 C0 I0 (by decide)).2.2.1,
   C5_representative_override.2 A5 B5 (by decide)
     (by rw [score_A5, score_B5]; decide)⟩

theorem mergeStep_grows (cur item : Item) :
    (∀ x ∈ cur.sources, x ∈ (mergeStep cur item).sources)
    ∧ (∀ x ∈ cur.source_urls, x ∈ (mergeStep cur item).source_urls)
    ∧ (∀ x ∈ cur.listing_ids, x ∈ (mergeStep cur item).listing_ids) := by
  refine ⟨fun x h => ?_, fun x h => ?_, fun x h => ?_⟩
  · rw [mergeStep_sources]
    exact mem_sortedSet.mpr (List.mem_append_left _ h)
  · rw [mergeStep_source_urls]
    exact mem_sortedSet.mpr (List.mem_append_left _ h)
  · rw [mergeStep_listing_ids]
    exact mem_sortedSet.mpr (List.mem_append_left _ h)

theorem insertItem_grows (acc : List Item) (item m : Item) (hm : m ∈ acc) :
    ∃ m' ∈ insertItem acc item,
      m'.canonical_key = m.canonical_key
      ∧ (∀ x ∈ m.sources, x ∈ m'.sources)
      ∧ (∀ x ∈ m.source_urls, x ∈ m'.source_urls)
      ∧ (∀ x ∈ m.listing_ids, x ∈ m'.listing_ids) := by
  induction acc with
  | nil => exact absurd hm (List.not_mem_nil m)
  | cons a rest ih =>
    simp only [insertItem]
    split
    · rcases List.mem_cons.mp hm with rfl | hmem
      · exact ⟨mergeStep m item, List.mem_cons_self _ _,
          mergeStep_canonical_key m item, (mergeStep_grows m item).1,
          (mergeStep_grows m item).2.1, (mergeStep_grows m item).2.2⟩
      · exact ⟨m, List.mem_cons_of_mem _ hmem, rfl,
          fun _ h => h, fun _ h => h, fun _ h => h⟩
    · rcases List.mem_cons.mp hm with rfl | hmem
      · exact ⟨m, List.mem_cons_self _ _, rfl, fun _ h => h, fun _ h => h, fun _ h => h⟩
      · rcases ih hmem with ⟨m', hm', hk, h1, h2, h3⟩
        exact ⟨m', List.mem_cons_of_mem _ hm', hk, h1, h2, h3⟩

theorem foldl_grows (more : List Item) (acc : List Item) (m : Item) (hm : m ∈ acc) :
    ∃ m' ∈ more.foldl foldItem acc,
      m'.canonical_key = m.canonical_key
      ∧ (∀ x ∈ m.sources, x ∈ m'.sources)
      ∧ (∀ x ∈ m.source_urls, x ∈ m'.source_urls)
      ∧ (∀ x ∈ m.listing_ids, x ∈ m'.listing_ids) := by
  induction more generalizing acc m with
  | nil => exact ⟨m, hm, rfl, fun _ h => h, fun _ h => h, fun _ h => h⟩
  | cons a as ih =>
    rw [List.foldl_cons]
    rcases insertItem_grows acc (annotate a) m hm with ⟨m1, hm1, hk1, h11, h12, h13⟩
    rcases ih (foldItem acc a) m1 hm1 with ⟨m', hm', hk', h1, h2, h3⟩
    exact ⟨m', hm', hk'.trans hk1, fun x h => h1 x (h11 x h),
      fun x h => h2 x (h12 x h), fun x h => h3 x (h13 x h)⟩

/-- C6: within a merge pass the provenance lists only grow — every element
of the stored record's sources / source URLs / listing ids is still present
after `mergeStep` folds in any further record with the same key, and more
generally, after any further sequence of records is folded into the pass
state, the listing stored for the key still contains every previously
recorded provenance entry (they never shrink within the run). -/
theorem C6_provenance_monotone :
    (∀ (cur item : Item) (x : String),
      (x ∈ cur.sources → x ∈ (mergeStep cur item).sources)
      ∧ (x ∈ cur.source_urls → x ∈ (mergeStep cur item).source_urls)
      ∧ (x ∈ cur.listing_ids → x ∈ (mergeStep cur item).listing_ids))
    ∧ (∀ (more acc : List Item) (m : Item), m ∈ acc →
        ∃ m' ∈ more.foldl foldItem acc,
          m'.canonical_key = m.canonical_key
          ∧ (∀ x ∈ m.sources, x ∈ m'.sources)
          ∧ (∀ x ∈ m.source_urls, x ∈ m'.source_urls)
          ∧ (∀ x ∈ m.listing_ids, x ∈ m'.listing_ids)) :=
  ⟨fun cur item x => ⟨fun h => (mergeStep_grows cur item).1 x h,
     fun h => (mergeStep_grows cur item).2.1 x h,
     fun h => (mergeStep_grows cur item).2.2 x h⟩,
   foldl_grows⟩

/-- C6 witness: the existing provenance entries of `C0` survive folding in
`I0`, and survive an entire further fold of the record `R1`. -/
theorem C6_provenance_monotone_witness :
    ("s1" ∈ (mergeStep C0 I0).sources
     ∧ "u1" ∈ (mergeStep C0 I0).source_urls
     ∧ "l1" ∈ (mergeStep C0 I0).listing_ids)
    ∧ ∃ m' ∈ [R1].foldl foldItem [C0],
        m'.canonical_key = C0.canonical_key
        ∧ (∀ x ∈ C0.sources, x ∈ m'.sources)
        ∧ (∀ x ∈ C0.source_urls, x ∈ m'.source_urls)
        ∧ (∀ x ∈ C0.listing_ids, x ∈ m'.listing_ids) :=
  ⟨⟨(C6_provenance_monotone.1 C0 I0 "s1").1 (by decide),
    (C6_provenance_monotone.1 C0 I0 "u1").2.1 (by decide),
    (C6_provenance_monotone.1 C0 I0 "l1").2.2 (by decide)⟩,
   C6_provenance_monotone.2 [R1] [C0] C0 (List.mem_singleton_self C0)⟩

theorem two_point_five : mkRat 5 2 = 5/2 := by
  rw [Rat.mkRat_eq_divInt, Rat.divInt_eq_div]
  norm_num

theorem merge_R1R2 : merge_duplicates [R1, R2] = [applyQuality (mergeStep (seed R1a) R2a)] :=
  merge_duplicates_single _ _
    (mergePass_pair R1 R2 R1a R2a annotate_R1 annotate_R2 (by decide)) (by decide)

theorem merge_R2R1 : merge_duplicates [R2, R1] = [applyQuality (mergeStep (seed R2a) R1a)] :=
  merge_duplicates_single _ _
    (mergePass_pair R2 R1 R2a R1a annotate_R2 annotate_R1 (by decide)) (by decide)

theorem merge_A4B4 : merge_duplicates [A4, B4] = [applyQuality (mergeStep (seed A4a) B4a)] :=
  merge_duplicates_single _ _
    (mergePass_pair A4 B4 A4a B4a annotate_A4 annotate_B4 (by decide)) (by decide)

/-- The merged record of `[A4, B4]`, written out in full. -/
def M4 : Item :=
  { listing_id := "a4", source := "redfin", url := "https://redfin.example/a4",
    address := "77 Oak Ave", property_type := "house",
    price := some 7500, beds := some 3, baths := some 2,
    canonical_key := "addr:77 oak ave", match_score := 4,
    sources := ["realtor", "redfin"],
    source_urls := ["https://realtor.example/b4", "https://redfin.example/a4"],
    listing_ids := ["a4", "b4"],
    data_quality := "pass", quality_notes := "ready" }

theorem merge_A4B4_val : applyQuality (mergeStep (seed A4a) B4a) = M4 := by decide

theorem score_M4 : score M4 = 7 := by
  simp only [score, M4, eq_false (by decide : ¬ (("" : String) = "yes"))]
  rw [round2_eval _ 7 (by norm_num [MAX_RENT, STRETCH_MAX])]
  norm_num [MAX_RENT, STRETCH_MAX]

/-- C2 (counterexample): in the arrival order realtor-then-redfin, the
merged record keeps the realtor record's 2.5 baths even though the redfin
record has the strictly higher individual match score (7 versus 3) and
baths 2 — so "baths taken from the record with the higher match score"
fails for this order. -/
theorem C2_counterexample :
    score R1 > score R2 ∧ R1.baths = some 2
    ∧ (merge_duplicates [R2, R1]).map Item.baths = [some (5/2)]
    ∧ some ((5:ℚ)/2) ≠ some (2:ℚ) := by
  refine ⟨by rw [score_R1, score_R2]; decide, rfl, ?_, by norm_num⟩
  rw [merge_R2R1, ← two_point_five]
  decide

/-- C2 (amended): the scenario merge yields, in either arrival order, one
MergedListing with sources `["realtor","redfin"]`, price 7500, beds 3 and
quality verdict "pass", and its baths value is the first-arriving record's
baths (2 when the redfin record arrives first, 2.5 when the realtor record
arrives first) — not the higher-scoring record's baths. -/
theorem C2_end_to_end_merge :
    ((merge_duplicates [R1, R2]).map
        (fun m => (m.sources, m.price, m.beds, m.baths, m.data_quality))
      = [(["realtor", "redfin"], some 7500, some 3, some 2, "pass")])
    ∧ ((merge_duplicates [R2, R1]).map
        (fun m => (m.sources, m.price, m.beds, m.baths, m.data_quality))
      = [(["realtor", "redfin"], some 7500, some 3, some (5/2), "pass")])
    ∧ score R1 > score R2 ∧ R1.baths = some 2 ∧ R2.baths = some (5/2) := by
  refine ⟨by rw [merge_R1R2]; decide, ?_, by rw [score_R1, score_R2]; decide, rfl, ?_⟩
  · rw [merge_R2R1, ← two_point_five]
    decide
  · rw [← two_point_five]
    rfl

/-- C4 (counterexample): for the records `A4` (score 3: beds and baths
only) and `B4` (score 4: price only) with the same key, the merged record
stores match score 4, while re-scoring its combined field values (price
7500, 3 beds, 2 baths) gives 7 — the match score is not recomputed after
the merge. -/
theorem C4_counterexample :
    (merge_duplicates [A4, B4]).map Item.match_score = [4]
    ∧ (merge_duplicates [A4, B4]).map score = [7]
    ∧ (4 : ℚ) ≠ 7 := by
  refine ⟨by rw [merge_A4B4]; decide, ?_, by decide⟩
  rw [merge_A4B4, List.map_cons, List.map_nil, merge_A4B4_val, score_M4]

/-- C4 (amended): the stored match score of a merged record is the running
maximum of the contributing records' individual scores — it is seeded with
the first record's individual score and `mergeStep` replaces it exactly
when the incoming record's individual score is strictly higher; it is not
recomputed from the merged record's combined field values. -/
theorem C4_match_score_running_max :
    (∀ r : Item, (seed (annotate r)).match_score = score r)
    ∧ (∀ cur item : Item,
        (mergeStep cur item).match_score = max cur.match_score item.match_score) :=
  ⟨fun _ => rfl, mergeStep_match_score⟩

theorem passes_applyQuality (m : Item) :
    passes_hard_filters (applyQuality m) = passes_hard_filters m := rfl

theorem merge_output_passes (items : List Item) (m : Item)
    (hm : m ∈ merge_duplicates items) : passes_hard_filters m = true := by
  simp only [merge_duplicates] at hm
  rw [mem_isortDesc] at hm
  rcases List.mem_map.mp hm with ⟨x, hx, rfl⟩
  rw [passes_applyQuality]
  exact (List.mem_filter.mp hx).2

theorem apartment_fails (m : Item) (h : m.property_type = "apartment") :
    passes_hard_filters m = false := by
  have hn : normPtype m = "apartment" := by
    unfold normPtype
    rw [h]
    decide
  unfold passes_hard_filters
  rw [hn, if_pos (by decide : ("apartment" : String) ∉ ALLOWED_PROPERTY_TYPES)]

/-- C7: hard filter boundary.  Every record output by `merge_duplicates`
passes the hard filters and in particular is never an apartment; any record
with property type "apartment" fails the filters regardless of score; price
9500 (above the stretch ceiling 9000) fails; an allowed-type record at
exactly 9000 passes; and null price/beds/baths pass the numeric filters
permissively. -/
theorem C7_hard_filter_boundary :
    (∀ (items : List Item) (m : Item), m ∈ merge_duplicates items →
        passes_hard_filters m = true ∧ m.property_type ≠ "apartment")
    ∧ (∀ m : Item, m.property_type = "apartment" → passes_hard_filters m = false)
    ∧ (∀ m : Item, m.price = some 9500 → passes_hard_filters m = false)
    ∧ (∀ m : Item, (m.property_type = "house" ∨ m.property_type = "townhouse") →
        m.price = some 9000 → m.beds = none → m.baths = none →
        passes_hard_filters m = true)
    ∧ (∀ m : Item, (m.property_type = "house" ∨ m.property_type = "townhouse") →
        m.price = none → m.beds = none → m.baths = none →
        passes_hard_filters m = true) := by
  refine ⟨fun items m hm => ⟨merge_output_passes items m hm, fun hap => ?_⟩,
    apartment_fails, fun m h => ?_, fun m hpt hp hb hba => ?_, fun m hpt hp hb hba => ?_⟩
  · have h2 := apartment_fails m hap
    rw [merge_output_passes items m hm] at h2
    exact Bool.noConfusion h2
  · unfold passes_hard_filters
    rw [h]
    split
    · rfl
    · rw [if_pos (by decide)]
  · have hmem : normPtype m ∈ ALLOWED_PROPERTY_TYPES := by
      rcases hpt with h | h <;> (unfold normPtype; rw [h]; decide)
    unfold passes_hard_filters
    rw [hp, hb, hba, if_neg (not_not_intro hmem)]
    decide
  · have hmem : normPtype m ∈ ALLOWED_PROPERTY_TYPES := by
      rcases hpt with h | h <;> (unfold normPtype; rw [h]; decide)
    unfold passes_hard_filters
    rw [hp, hb, hba, if_neg (not_not_intro hmem)]
    decide

/-- C7 witness: the merged scenario record passes the filters and is not an
apartment; `A7` (apartment) and `P7` (price 9500) are excluded; `H7`
(house, price exactly 9000, null beds/baths) and `N7` (townhouse, all
numerics null) are retained. -/
theorem C7_hard_filter_boundary_witness :
    (passes_hard_filters (applyQuality (mergeStep (seed R1a) R2a)) = true
      ∧ (applyQuality (mergeStep (seed R1a) R2a)).property_type ≠ "apartment")
    ∧ passes_hard_filters A7 = false
    ∧ passes_hard_filters P7 = false
    ∧ passes_hard_filters H7 = true
    ∧ passes_hard_filters N7 = true :=
  ⟨C7_hard_filter_boundary.1 [R1, R2] _ (by rw [merge_R1R2]; exact List.mem_singleton_self _),
   C7_hard_filter_boundary.2.1 A7 rfl,
   C7_hard_filter_boundary.2.2.1 P7 rfl,
   C7_hard_filter_boundary.2.2.2.1 H7 (Or.inl rfl) rfl rfl rfl,
   C7_hard_filter_boundary.2.2.2.2 N7 (Or.inr rfl) rfl rfl rfl⟩

theorem qa_pass (m : Item) (hkey : m.canonical_key ≠ "")
    (had : ¬(m.address = "" ∧ m.property_name = "")) (hso : m.sources ≠ [])
    (hpr : m.price ≠ none) (hbe : m.beds ≠ none) (hba : m.baths ≠ none)
    (hpt : normPtype m ∈ ALLOWED_PROPERTY_TYPES) :
    quality_assessment m = ("pass", "ready") := by
  simp only [quality_assessment, quality_reasons,
    if_neg hkey, if_neg had, if_neg hso, if_neg hpr, if_neg hbe, if_neg hba,
    if_neg (not_not_intro hpt)]
  rfl

theorem qa_missing_price (m : Item) (hkey : m.canonical_key ≠ "")
    (had : ¬(m.address = "" ∧ m.property_name = "")) (hso : m.sources ≠ [])
    (hpr : m.price = none) (hbe : m.beds ≠ none) (hba : m.baths ≠ none)
    (hpt : normPtype m ∈ ALLOWED_PROPERTY_TYPES) :
    quality_assessment m = ("fail", "missing price") := by
  simp only [quality_assessment, quality_reasons,
    if_neg hkey, if_neg had, if_neg hso, if_pos hpr, if_neg hbe, if_neg hba,
    if_neg (not_not_intro hpt)]
  rfl

theorem qa_missing_beds (m : Item) (hkey : m.canonical_key ≠ "")
    (had : ¬(m.address = "" ∧ m.property_name = "")) (hso : m.sources ≠ [])
    (hpr : m.price ≠ none) (hbe : m.beds = none) (hba : m.baths ≠ none)
    (hpt : normPtype m ∈ ALLOWED_PROPERTY_TYPES) :
    quality_assessment m = ("fail", "missing beds") := by
  simp only [quality_assessment, quality_reasons,
    if_neg hkey, if_neg had, if_neg hso, if_neg hpr, if_pos hbe, if_neg hba,
    if_neg (not_not_intro hpt)]
  rfl

theorem qa_missing_baths (m : Item) (hkey : m.canonical_key ≠ "")
    (had : ¬(m.address = "" ∧ m.property_name = "")) (hso : m.sources ≠ [])
    (hpr : m.price ≠ none) (hbe : m.beds ≠ none) (hba : m.baths = none)
    (hpt : normPtype m ∈ ALLOWED_PROPERTY_TYPES) :
    quality_assessment m = ("fail", "missing baths") := by
  simp only [quality_assessment, quality_reasons,
    if_neg hkey, if_neg had, if_neg hso, if_neg hpr, if_neg hbe, if_pos hba,
    if_neg (not_not_intro hpt)]
  rfl

theorem qa_missing_sources (m : Item) (hkey : m.canonical_key ≠ "")
    (had : ¬(m.address = "" ∧ m.property_name = "")) (hso : m.sources = [])
    (hpr : m.price ≠ none) (hbe : m.beds ≠ none) (hba : m.baths ≠ none)
    (hpt : normPtype m ∈ ALLOWED_PROPERTY_TYPES) :
    quality_assessment m = ("fail", "missing sources") := by
  simp only [quality_assessment, quality_reasons,
    if_neg hkey, if_neg had, if_pos hso, if_neg hpr, if_neg hbe, if_neg hba,
    if_neg (not_not_intro hpt)]
  rfl

theorem qa_missing_addressname (m : Item) (hkey : m.canonical_key ≠ "")
    (had : m.address = "" ∧ m.property_name = "") (hso : m.sources ≠ [])
    (hpr : m.price ≠ none) (hbe : m.beds ≠ none) (hba : m.baths ≠ none)
    (hpt : normPtype m ∈ ALLOWED_PROPERTY_TYPES) :
    quality_assessment m = ("fail", "missing address/name") := by
  simp only [quality_assessment, quality_reasons,
    if_neg hkey, if_pos had, if_neg hso, if_neg hpr, if_neg hbe, if_neg hba,
    if_neg (not_not_intro hpt)]
  rfl

theorem qa_bad_ptype (m : Item) (hkey : m.canonical_key ≠ "")
    (had : ¬(m.address = "" ∧ m.property_name = "")) (hso : m.sources ≠ [])
    (hpr : m.price ≠ none) (hbe : m.beds ≠ none) (hba : m.baths ≠ none)
    (hpt : normPtype m ∉ ALLOWED_PROPERTY_TYPES) :
    quality_assessment m = ("fail", "property type not allowed: " ++ normPtype m) := by
  simp only [quality_assessment, quality_reasons,
    if_neg hkey, if_neg had, if_neg hso, if_neg hpr, if_neg hbe, if_neg hba,
    if_pos hpt]
  rfl

/-- C8 (counterexample): `X8` has non-null price/beds/baths, a non-empty
address, an allowed property type and non-empty sources, yet
`quality_assessment` fails it ("missing canonical key") because the claim
omits the canonical-key check; and `Y8`, whose address was removed but
which carries a property name, passes instead of failing. -/
theorem C8_counterexample :
    X8.price ≠ none ∧ X8.beds ≠ none ∧ X8.baths ≠ none ∧ X8.address ≠ ""
    ∧ normPtype X8 ∈ ALLOWED_PROPERTY_TYPES ∧ X8.sources ≠ []
    ∧ quality_assessment X8 = ("fail", "missing canonical key")
    ∧ Y8.address = "" ∧ Y8.property_name ≠ ""
    ∧ quality_assessment Y8 = ("pass", "ready") := by decide

/-- C8 (amended): a record with a non-empty canonical key, non-null
price/beds/baths, a non-empty address, an allowed property type and
non-empty sources passes the quality gate with notes "ready"; removing any
one of price, beds, baths, sources or the property type yields "fail" with
exactly the single reason naming that field; removing the address yields
"fail"/"missing address/name" only when the record has no property name —
with a property name present it still passes. -/
theorem C8_quality_gate (r : Item)
    (hkey : r.canonical_key ≠ "") (hpr : r.price ≠ none) (hbe : r.beds ≠ none)
    (hba : r.baths ≠ none) (had : r.address ≠ "") (hso : r.sources ≠ [])
    (hpt : normPtype r ∈ ALLOWED_PROPERTY_TYPES) :
    quality_assessment r = ("pass", "ready")
    ∧ quality_assessment { r with price := none } = ("fail", "missing price")
    ∧ quality_assessment { r with beds := none } = ("fail", "missing beds")
    ∧ quality_assessment { r with baths := none } = ("fail", "missing baths")
    ∧ quality_assessment { r with sources := [] } = ("fail", "missing sources")
    ∧ quality_assessment { r with property_type := "" }
        = ("fail", "property type not allowed: unknown")
    ∧ (r.property_name = "" →
        quality_assessment { r with address := "" } = ("fail", "missing address/name"))
    ∧ (r.property_name ≠ "" →
        quality_assessment { r with address := "" } = ("pass", "ready")) := by
  have had' : ¬(r.address = "" ∧ r.property_name = "") := fun h => had h.1
  refine ⟨qa_pass r hkey had' hso hpr hbe hba hpt,
    qa_missing_price _ hkey had' hso rfl hbe hba hpt,
    qa_missing_beds _ hkey had' hso hpr rfl hba hpt,
    qa_missing_baths _ hkey had' hso hpr hbe rfl hpt,
    qa_missing_sources _ hkey had' rfl hpr hbe hba hpt,
    ?_, fun hpn => ?_, fun hpn => ?_⟩
  · have h := qa_bad_ptype { r with property_type := "" } hkey had' hso hpr hbe hba
      (by rw [show normPtype { r with property_type := "" } = "unknown" from rfl]; decide)
    rw [show normPtype { r with property_type := "" } = "unknown" from rfl] at h
    exact h
  · exact qa_missing_addressname { r with address := "" } hkey ⟨rfl, hpn⟩ hso hpr hbe hba hpt
  · exact qa_pass { r with address := "" } hkey (fun h => hpn h.2) hso hpr hbe hba hpt

/-- C8 witness: the gate at the concrete record `G8` (pass, then missing
price on removal) and at `G8n` (address removed but name present: pass). -/
theorem C8_quality_gate_witness :
    quality_assessment G8 = ("pass", "ready")
    ∧ quality_assessment { G8 with price := none } = ("fail", "missing price")
    ∧ quality_assessment { G8n with address := "" } = ("pass", "ready") :=
  ⟨(C8_quality_gate G8 (by decide) (by decide) (by decide) (by decide) (by decide)
      (by decide) (by decide)).1,
   (C8_quality_gate G8 (by decide) (by decide) (by decide) (by decide) (by decide)
      (by decide) (by decide)).2.1,
   (C8_quality_gate G8n (by decide) (by decide) (by decide) (by decide) (by decide)
      (by decide) (by decide)).2.2.2.2.2.2.2 (by decide)⟩

/-- C9 (counterexample): `merge_duplicates` does not leave its input
records unchanged — lines 278-280 write `canonical_key` (and
`match_score`) into each input dict, so the raw record `R9` ends the pass
with a different canonical-key field than it started with. -/
theorem C9_counterexample :
    merge_inputs_after [R9] ≠ [R9]
    ∧ (annotate R9).canonical_key ≠ R9.canonical_key := by
  refine ⟨fun h => ?_, by decide⟩
  have h1 : annotate R9 = R9 := by
    simp only [merge_inputs_after, List.map_cons, List.map_nil] at h
    injection h
  exact absurd (congrArg Item.canonical_key h1) (by decide)

/-- C9 (amended): the merge pass mutates each input record exactly by
annotating it — after the run every input equals its `annotate`d form, and
`annotate` changes only the `canonical_key` and `match_score` entries,
leaving every other field of the record unchanged. -/
theorem C9_inputs_annotated_frame :
    (∀ items : List Item, merge_inputs_after items = items.map annotate)
    ∧ (∀ r : Item,
        (annotate r).listing_id = r.listing_id
        ∧ (annotate r).source = r.source
        ∧ (annotate r).url = r.url
        ∧ (annotate r).property_name = r.property_name
        ∧ (annotate r).address = r.address
        ∧ (annotate r).city = r.city
        ∧ (annotate r).property_type = r.property_type
        ∧ (annotate r).price = r.price
        ∧ (annotate r).beds = r.beds
        ∧ (annotate r).baths = r.baths
        ∧ (annotate r).dog_friendly = r.dog_friendly
        ∧ (annotate r).parking = r.parking
        ∧ (annotate r).nature_score = r.nature_score
        ∧ (annotate r).commute_score = r.commute_score
        ∧ (annotate r).sources = r.sources
        ∧ (annotate r).source_urls = r.source_urls
        ∧ (annotate r).listing_ids = r.listing_ids
        ∧ (annotate r).data_quality = r.data_quality
        ∧ (annotate r).quality_notes = r.quality_notes) :=
  ⟨fun _ => rfl,
   fun _ => ⟨rfl, rfl, rfl, rfl, rfl, rfl, rfl, rfl, rfl, rfl, rfl, rfl, rfl, rfl,
     rfl, rfl, rfl, rfl, rfl⟩⟩

theorem keyShape_addr (x : String) : exactlyOneKeyShape ("addr:" ++ x) = true := by
  simp [exactlyOneKeyShape, strStarts, List.isPrefixOf, String.data_append]

theorem keyShape_namecity (a b : String) :
    exactlyOneKeyShape ("namecity:" ++ a ++ "|" ++ b) = true := by
  simp [exactlyOneKeyShape, strStarts, List.isPrefixOf, String.data_append]

theorem keyShape_url (x : String) : exactlyOneKeyShape ("url:" ++ x) = true := by
  simp [exactlyOneKeyShape, strStarts, List.isPrefixOf, String.data_append]

theorem canonical_key_shape (r : Item) :
    exactlyOneKeyShape (canonical_key r) = true := by
  simp only [canonical_key]
  split
  · exact keyShape_addr _
  · split
    · exact keyShape_namecity _ _
    · exact keyShape_url _

theorem canonical_key_ne_empty (r : Item) : canonical_key r ≠ "" := by
  simp only [canonical_key]
  split
  · intro h
    have h2 := congrArg String.data h
    simp [String.data_append] at h2
  · split
    · intro h
      have h2 := congrArg String.data h
      simp [String.data_append] at h2
    · intro h
      have h2 := congrArg String.data h
      simp [String.data_append] at h2

theorem insertItem_key (acc : List Item) (item m : Item) (hm : m ∈ insertItem acc item) :
    (∃ m0 ∈ acc, m.canonical_key = m0.canonical_key)
    ∨ m.canonical_key = item.canonical_key := by
  induction acc with
  | nil =>
    simp only [insertItem, List.mem_singleton] at hm
    right
    rw [hm, seed_canonical_key]
  | cons a rest ih =>
    simp only [insertItem] at hm
    split at hm
    · rcases List.mem_cons.mp hm with rfl | hmem
      · exact Or.inl ⟨a, List.mem_cons_self a rest, mergeStep_canonical_key a item⟩
      · exact Or.inl ⟨m, List.mem_cons_of_mem a hmem, rfl⟩
    · rcases List.mem_cons.mp hm with rfl | hmem
      · exact Or.inl ⟨m, List.mem_cons_self m rest, rfl⟩
      · rcases ih hmem with ⟨m0, hm0, he⟩ | he
        · exact Or.inl ⟨m0, List.mem_cons_of_mem a hm0, he⟩
        · exact Or.inr he

theorem foldl_key (items : List Item) (acc : List Item) (m : Item)
    (hm : m ∈ items.foldl foldItem acc) :
    (∃ m0 ∈ acc, m.canonical_key = m0.canonical_key)
    ∨ ∃ r ∈ items, m.canonical_key = canonical_key r := by
  induction items generalizing acc with
  | nil =>
    exact Or.inl ⟨m, hm, rfl⟩
  | cons a as ih =>
    rw [List.foldl_cons] at hm
    rcases ih (foldItem acc a) hm with ⟨m0, hm0, he⟩ | ⟨r, hr, he⟩
    · rcases insertItem_key acc (annotate a) m0 hm0 with ⟨m1, hm1, he1⟩ | he1
      · exact Or.inl ⟨m1, hm1, he.trans he1⟩
      · exact Or.inr ⟨a, List.mem_cons_self a as,
          by rw [he, he1, annotate_canonical_key]⟩
    · exact Or.inr ⟨r, List.mem_cons_of_mem a hr, he⟩

theorem merge_output_key (items : List Item) (m : Item)
    (hm : m ∈ merge_duplicates items) :
    ∃ r ∈ items, m.canonical_key = canonical_key r := by
  simp only [merge_duplicates] at hm
  rw [mem_isortDesc] at hm
  rcases List.mem_map.mp hm with ⟨x, hx, rfl⟩
  rcases foldl_key items [] x (List.mem_filter.mp hx).1 with ⟨m0, hm0, _⟩ | ⟨r, hr, he⟩
  · exact absurd hm0 (List.not_mem_nil m0)
  · exact ⟨r, hr, by rw [show (applyQuality x).canonical_key = x.canonical_key from rfl, he]⟩

theorem mem_ite_singleton {x s : String} {c : Prop} [Decidable c]
    (h : x ∈ if c then [s] else []) : x = s := by
  split at h
  · simpa using h
  · simp at h

theorem missing_key_ne_ptype_reason (s : String) :
    "missing canonical key" ≠ "property type not allowed: " ++ s := by
  intro h
  have h2 : ("missing canonical key" : String).data.head?
      = ("property type not allowed: " ++ s).data.head? := by rw [h]
  rw [show ("property type not allowed: " ++ s).data.head? = some 'p' from rfl] at h2
  rw [show ("missing canonical key" : String).data.head? = some 'm' from rfl] at h2
  exact absurd h2 (by decide)

theorem missing_key_not_mem (m : Item) (h : m.canonical_key ≠ "") :
    "missing canonical key" ∉ quality_reasons m := by
  intro hmem
  simp only [quality_reasons, if_neg h, List.nil_append, List.mem_append] at hmem
  rcases hmem with ((((h2 | h2) | h2) | h2) | h2) | h2
  · exact absurd (mem_ite_singleton h2) (by decide)
  · exact absurd (mem_ite_singleton h2) (by decide)
  · exact absurd (mem_ite_singleton h2) (by decide)
  · exact absurd (mem_ite_singleton h2) (by decide)
  · exact absurd (mem_ite_singleton h2) (by decide)
  · exact missing_key_ne_ptype_reason _ (mem_ite_singleton h2)

/-- C10: `canonical_key` is total and never empty or prefix-less — for
every record it returns a string starting with exactly one of `addr:`,
`namecity:`, `url:`; consequently every record output by
`merge_duplicates` has a non-empty canonical key, and the "missing
canonical key" quality reason can never fire on merge output. -/
theorem C10_canonical_key_total :
    (∀ r : Item, canonical_key r ≠ ""
      ∧ exactlyOneKeyShape (canonical_key r) = true)
    ∧ (∀ (items : List Item) (m : Item), m ∈ merge_duplicates items →
        m.canonical_key ≠ ""
        ∧ exactlyOneKeyShape m.canonical_key = true
        ∧ "missing canonical key" ∉ quality_reasons m) := by
  refine ⟨fun r => ⟨canonical_key_ne_empty r, canonical_key_shape r⟩,
    fun items m hm => ?_⟩
  rcases merge_output_key items m hm with ⟨r, _, he⟩
  have hne : m.canonical_key ≠ "" := by
    rw [he]
    exact canonical_key_ne_empty r
  exact ⟨hne, by rw [he]; exact canonical_key_shape r, missing_key_not_mem m hne⟩

/-- C10 witness: the scenario merge output has a non-empty, well-shaped
canonical key, and the missing-key reason does not fire on it. -/
theorem C10_canonical_key_total_witness :
    (applyQuality (mergeStep (seed R1a) R2a)).canonical_key ≠ ""
    ∧ exactlyOneKeyShape (applyQuality (mergeStep (seed R1a) R2a)).canonical_key = true
    ∧ "missing canonical key" ∉ quality_reasons (applyQuality (mergeStep (seed R1a) R2a)) :=
  C10_canonical_key_total.2 [R1, R2] _ (by rw [merge_R1R2]; exact List.mem_singleton_self _)

end BayHousing
